import Mathlib

/-!
# Calibre-Web background task core: shallow embedding and verification

This file embeds the background-task subsystem of the calibre-web fork
(scheduler, worker-pool sweep, status reporting, the scheduled task variants
and the admin re-registration route) as executable Lean definitions, and
proves or refutes the specification claims about them.

Source files embedded:
* `calibre_web/schedule.py` (scheduler, sweep, window computation)
* `cps/tasks_status.py` (status reporting projection)
* `calibre_web/admin.py` (`update_scheduledtasks` route)
* `calibre_web/tasks/metadata_backup.py`
* `calibre_web/tasks/upload.py`
* `calibre-web/tasks/tempFolder.py`

The module `calibre_web/services/worker.py` (the `CalibreTask` base class and
`WorkerThread` pool) is not part of the repository snapshot; the pieces of it
that the claims need (`end_task`, `_handleSuccess`, `_handleError`, the status
constants and the queue-entry tuple shape) are modelled from the spec, and are
marked as such in their doc comments.
-/

namespace CalibreWeb

/-- Task status. Modelled from the spec: `services/worker.py` defines integer
constants `STAT_WAITING`, `STAT_STARTED`, `STAT_FINISH_SUCCESS`, `STAT_FAIL`,
`STAT_ENDED`, `STAT_CANCELLED` (spec section 3, `stat` enum); the module is not
in the snapshot, so the six states are modelled as an inductive type. -/
inductive Stat where
  | waiting
  | started
  | finishSuccess
  | fail
  | ended
  | cancelled
  deriving DecidableEq, Repr

/-- A task as seen by the pool and the scheduler sweep: the fields of
`CalibreTask` that the embedded code reads (spec section 3 data model).
Timestamps are seconds; `progress` is a rational in place of a Python float. -/
structure Task where
  id : Nat
  name : String
  message : String
  progress : ℚ
  stat : Stat
  is_cancellable : Bool
  scheduled : Bool
  start_time : Option Nat
  end_time : Option Nat
  deriving DecidableEq, Repr

/-- A worker-pool queue entry. Modelled from the spec (section 3): the pool's
`tasks` list yields tuples `(submission time, user, hidden-flag, Task, unique
id)`; both `schedule.py` line 57 and `tasks_status.py` line 59 destructure the
tuple this way, binding only `user` and `task`. -/
structure QueueEntry where
  submit_time : Nat
  user : String
  hidden : Bool
  task : Task
  id : Nat
  deriving DecidableEq, Repr

/-- Modelled from the spec (section 4.2): `_handleSuccess` records terminal
success on the task. -/
def handleSuccess (t : Task) : Task :=
  { t with stat := Stat.finishSuccess, progress := 1 }

/-- Modelled from the spec (sections 4.2 and 7): `_handleError message`
records terminal failure with the message surfaced into the task. -/
def handleError (msg : String) (t : Task) : Task :=
  { t with stat := Stat.fail, message := msg }

/-- Modelled from the spec (section 4.2, `cancel(task_id)`): a Waiting task is
cancelled outright and never runs; a Started task is cancelled only while
`is_cancellable`; a task in any terminal state is left unchanged (no-op). -/
def cancelTask (t : Task) : Task :=
  match t.stat with
  | Stat.waiting => { t with stat := Stat.cancelled }
  | Stat.started => if t.is_cancellable then { t with stat := Stat.cancelled } else t
  | _ => t

/-- Modelled from the spec: `WorkerThread.end_task tid` applies the
cancellation transition to the entry whose task carries id `tid`
(`services/worker.py` is not in the snapshot). -/
def end_task (pool : List QueueEntry) (tid : Nat) : List QueueEntry :=
  pool.map fun e => if e.task.id = tid then { e with task := cancelTask e.task } else e

/-- `schedule.py` lines 55-59, the ids the sweep requests cancellation for:
`for __, __, __, task, __ in worker.tasks: if task.scheduled and
task.is_cancellable: worker.end_task(task.id)`. -/
def end_scheduled_tasks_ids (pool : List QueueEntry) : List Nat :=
  (pool.filter fun e => e.task.scheduled && e.task.is_cancellable).map fun e => e.task.id

/-- `end_scheduled_tasks` (`schedule.py` lines 55-59): the pool after the
end-of-window sweep has issued `end_task` for every requested id. The flags
the loop tests are read from the snapshot taken at loop entry; `end_task`
changes only `stat`, so the iteration order is immaterial. -/
def end_scheduled_tasks (pool : List QueueEntry) : List QueueEntry :=
  (end_scheduled_tasks_ids pool).foldl end_task pool

/-! ## Status reporting (`cps/tasks_status.py`) -/

/-- The requesting identity seen by `render_task_status`: `current_user.name`
and `current_user.role_admin()`. -/
structure CurrentUser where
  name : String
  role_admin : Bool
  deriving DecidableEq, Repr

/-- A Python `timedelta` restricted to what `format_runtime` reads:
`days` and `seconds` (`seconds` is the normalized remainder, `0 <= seconds <
86400`; microseconds are not read). -/
structure Timedelta where
  days : Int
  seconds : Nat
  deriving DecidableEq, Repr

/-- Modelled from the spec (section 3): `task.runtime` is derived as
`end_time - start_time`, or `now - start_time` while still running
(`CalibreTask` is not in the snapshot). Timestamps are seconds. -/
def Task.runtime (now : Nat) (t : Task) : Timedelta :=
  let stop := match t.end_time with
    | some e => e
    | none => now
  let total := stop - t.start_time.getD 0
  { days := (total / 86400 : Nat), seconds := total % 86400 }

/-- Zero-padded two-digit rendering, the Python format spec `{n:02d}`
for `0 <= n`. -/
def pad_zero2 (n : Nat) : String :=
  if n < 10 then "0" ++ toString n else toString n

/-- Space-padded two-digit rendering, the Python format spec `{n:2d}`
for `0 <= n`. -/
def pad_space2 (n : Nat) : String :=
  if n < 10 then " " ++ toString n else toString n

/-- `babel.units.format_unit(days, "duration-day", length="long")` is an
external localization collaborator (spec section 4.4); modelled as a plain
rendering of the day count. -/
def format_unit_days (d : Int) : String :=
  toString d ++ " days"

/-- `format_runtime` (`tasks_status.py` lines 98-111): days part when
`runtime.days` is truthy, then `divmod` of the seconds into
hours/minutes/seconds and one of the three layout branches. -/
def format_runtime (runtime : Timedelta) : String :=
  let ret_val := if runtime.days ≠ 0 then format_unit_days runtime.days ++ ", " else ""
  let minutes := runtime.seconds / 60
  let seconds := runtime.seconds % 60
  let hours := minutes / 60
  let minutes := minutes % 60
  if hours ≠ 0 then
    ret_val ++ toString hours ++ ":" ++ pad_zero2 minutes ++ ":" ++ pad_zero2 seconds ++ "s"
  else if minutes ≠ 0 then
    ret_val ++ pad_space2 minutes ++ ":" ++ pad_zero2 seconds ++ "s"
  else
    ret_val ++ pad_space2 seconds ++ "s"

/-- `flask_babel.format_datetime(t, format="short")` is an external
localization collaborator; modelled as a plain rendering of the timestamp. -/
def format_datetime_short (t : Nat) : String :=
  toString t

/-- `markupsafe.escape` is an external collaborator (XSS protection); the
claims do not depend on the escaping, so it is modelled as the identity. -/
def escape (s : String) : String :=
  s

/-- The status localization ladder of `render_task_status` lines 67-81.
The final `else` arm ("Unknown Status") is unreachable for the six modelled
constants. -/
def status_label : Stat → String
  | Stat.waiting => "Waiting"
  | Stat.fail => "Failed"
  | Stat.started => "Started"
  | Stat.finishSuccess => "Finished"
  | Stat.ended => "Ended"
  | Stat.cancelled => "Cancelled"

/-- Python `int()` applied to a rational: truncation toward zero. -/
def py_int (q : ℚ) : Int :=
  if 0 ≤ q then q.floor else -((-q).floor)

/-- The record `ret` built for one accepted entry
(`tasks_status.py` lines 61-90). -/
structure TaskRecord where
  starttime : Option String
  runtime : Option String
  status : String
  taskMessage : String
  progress : String
  user : String
  task_id : Nat
  stat : Stat
  is_cancellable : Bool
  deriving DecidableEq, Repr

/-- One iteration body of `render_task_status` after the ownership test:
`starttime`/`runtime` only when `task.start_time` is set, the localized
status, the message and progress renderings, the escaped owner, and the
hidden fields. -/
def render_one (now : Nat) (e : QueueEntry) : TaskRecord :=
  { starttime := e.task.start_time.map format_datetime_short
    runtime := e.task.start_time.map fun _ => format_runtime (Task.runtime now e.task)
    status := status_label e.task.stat
    taskMessage :=
      if e.task.message ≠ "" then e.task.name ++ ": " ++ e.task.message else e.task.name
    progress := toString (py_int (e.task.progress * 100)) ++ " %"
    user := escape e.user
    task_id := e.task.id
    stat := e.task.stat
    is_cancellable := e.task.is_cancellable }

/-- `render_task_status` (`tasks_status.py` lines 57-94): walk the entry
tuples in order and append a record exactly when
`user == current_user.name or current_user.role_admin()`. -/
def render_task_status (now : Nat) (current_user : CurrentUser) :
    List QueueEntry → List TaskRecord
  | [] => []
  | e :: rest =>
    if e.user = current_user.name ∨ current_user.role_admin = true then
      render_one now e :: render_task_status now current_user rest
    else
      render_task_status now current_user rest

/-! ## Scheduler (`calibre_web/schedule.py`) -/

/-- The scheduler-related configuration fields (`config_sql.CONFIG`), read by
`get_scheduled_tasks`, `register_scheduled_tasks` and written by
`update_scheduledtasks`. The two numeric fields are Python ints. -/
structure Config where
  schedule_start_time : Int
  schedule_duration : Int
  schedule_generate_book_covers : Bool
  schedule_generate_series_covers : Bool
  schedule_metadata_backup : Bool
  schedule_reconnect : Bool
  deriving DecidableEq, Repr

def MICROS_PER_HOUR : Int := 3600000000

def MICROS_PER_MINUTE : Int := 60000000

/-- `should_task_be_running` (`schedule.py` lines 98-102). Wall-clock
datetimes are embedded as microseconds since the current day's midnight
(`now.replace(hour=start, minute=0, second=0, microsecond=0)` is
`start * MICROS_PER_HOUR`; `timedelta(hours=duration // 60, minutes=duration %
60)` adds exactly `duration` minutes; the sum may pass midnight, which the
embedding represents as a value of at least 24 hours, consistently with
datetime comparison reaching into the next day). Both comparisons in
`start_time < now < end_time` are strict. -/
def should_task_be_running (start duration : Int) (now : Int) : Bool :=
  let start_time := start * MICROS_PER_HOUR
  let end_time :=
    start_time + duration / 60 * MICROS_PER_HOUR + duration % 60 * MICROS_PER_MINUTE
  decide (start_time < now) && decide (now < end_time)

/-- The claim's reading of the window test, following the claim's words only
(for comparison with `should_task_be_running`): "the current wall-clock time
lies inside the active maintenance window [start hour, start hour +
duration]", a closed interval. -/
def in_closed_window (start duration : Int) (now : Int) : Bool :=
  decide (start * MICROS_PER_HOUR ≤ now) &&
    decide (now ≤ start * MICROS_PER_HOUR + duration * MICROS_PER_MINUTE)

/-- `calclulate_end_time` (`schedule.py` lines 105-107), reduced to the pair
`(end_time.hour, end_time.minute)` that the caller reads:
`now.replace(hour=start, minute=0)` plus `duration` minutes gives hour
`(start + duration // 60) % 24` and minute `duration % 60` (the preserved
seconds/microseconds of `now` never carry into the minute). -/
def calclulate_end_time (start duration : Int) : Int × Int :=
  ((start + duration / 60) % 24, duration % 60)

/-- One element of the `get_scheduled_tasks` list: the source builds
`[lambda, name, hidden]` triples; the thunk is represented by the name of the
task class it constructs. -/
structure ScheduledTaskSpec where
  task_class : String
  name : String
  hidden : Bool
  deriving DecidableEq, Repr

/-- `get_scheduled_tasks` (`schedule.py` lines 30-52): the fixed ordered
batch, with the reconnect, metadata-backup, book-cover and series-cover
elements conditional on the `reconnect` argument and the configuration
flags. -/
def get_scheduled_tasks (cfg : Config) (reconnect : Bool) : List ScheduledTaskSpec :=
  (if reconnect then [⟨"TaskReconnectDatabase", "reconnect", false⟩] else []) ++
  [⟨"TaskDeleteTempFolder", "delete temp", true⟩] ++
  (if cfg.schedule_metadata_backup then
    [⟨"TaskBackupMetadata", "backup metadata", false⟩] else []) ++
  (if cfg.schedule_generate_book_covers then
    [⟨"TaskClearCoverThumbnailCache", "delete superfluous book covers", true⟩,
     ⟨"TaskGenerateCoverThumbnails", "generate book covers", false⟩] else []) ++
  (if cfg.schedule_generate_series_covers then
    [⟨"TaskGenerateSeriesThumbnails", "generate book covers", false⟩] else [])

/-- A cron trigger restricted to the fields the source passes:
`CronTrigger(hour=...)` (minute defaults to 0) and
`CronTrigger(hour=..., minute=...)`. -/
structure CronTrigger where
  hour : Int
  minute : Int
  deriving DecidableEq, Repr

/-- A job installed on the background scheduler: either the daily task batch
(`schedule_tasks`) or a named function job (`schedule`). -/
inductive Job where
  | taskBatch (tasks : List ScheduledTaskSpec) (trigger : CronTrigger)
  | funcJob (name : String) (trigger : CronTrigger)
  deriving DecidableEq, Repr

/-- Modelled from the spec: the `BackgroundScheduler` wrapper
(`services/background_scheduler.py` is not in the snapshot) holds the set of
installed trigger jobs; `remove_all_jobs` empties it, `schedule_tasks` and
`schedule` append jobs, and `schedule_tasks_immediately` submits the batch to
the worker pool without touching the job list. -/
structure SchedulerState where
  jobs : List Job
  deriving DecidableEq, Repr

/-- The observable outcome of `register_scheduled_tasks`: the scheduler's job
list afterwards, and the batch submitted immediately (empty when no immediate
kick-off happened). -/
structure RegisterResult where
  scheduler : SchedulerState
  immediate : List ScheduledTaskSpec
  deriving DecidableEq, Repr

/-- `register_scheduled_tasks` (`schedule.py` lines 62-80): remove all
existing jobs, install the batch trigger at `CronTrigger(hour=start)` and the
"end scheduled task" trigger at the computed end time, then kick off the batch
immediately when `should_task_be_running(start, duration)` holds. `now` is the
current time in microseconds since midnight. -/
def register_scheduled_tasks (cfg : Config) (reconnect : Bool) (now : Int)
    (_prev : SchedulerState) : RegisterResult :=
  let sched := SchedulerState.mk []
  let start := cfg.schedule_start_time
  let duration := cfg.schedule_duration
  let sched := SchedulerState.mk
    (sched.jobs ++ [Job.taskBatch (get_scheduled_tasks cfg reconnect) ⟨start, 0⟩])
  let end_time := calclulate_end_time start duration
  let sched := SchedulerState.mk
    (sched.jobs ++ [Job.funcJob "end scheduled task" ⟨end_time.1, end_time.2⟩])
  { scheduler := sched
    immediate :=
      if should_task_be_running start duration now then get_scheduled_tasks cfg reconnect
      else [] }

/-! ## Admin route `update_scheduledtasks` (`calibre_web/admin.py` lines 1262-1302) -/

/-- The Python exceptions the embedded code can raise. -/
inductive PyError where
  | attributeError (msg : String)
  | nameError (msg : String)
  | unboundLocalError (msg : String)
  deriving DecidableEq, Repr

/-- A `flash(message, category=...)` call. -/
structure Flash where
  message : String
  category : String
  deriving DecidableEq, Repr

/-- The POST form of `/admin/scheduledtasks` after `int()` parsing of the two
numeric fields (a non-numeric submission raises in `int()` before validation
and is outside the claims); the checkbox fields arrive as booleans
(`value == "on"`). -/
structure ScheduleForm where
  schedule_start_time : Int
  schedule_duration : Int
  schedule_generate_book_covers : Bool
  schedule_generate_series_covers : Bool
  schedule_metadata_backup : Bool
  schedule_reconnect : Bool
  deriving DecidableEq, Repr

/-- The observable outcome of one `update_scheduledtasks` request. -/
structure UpdateOutcome where
  config : Config
  flashes : List Flash
  saved : Bool
  pool : List QueueEntry
  scheduler : SchedulerState
  register_called : Bool
  error_raised : Option PyError
  deriving DecidableEq, Repr

/-- `update_scheduledtasks` (`admin.py` lines 1262-1302). Validation: the
start time is stored only when `0 <= value <= 23`, the duration only when
`0 < value <= 60`; an out-of-range value flashes an error and sets the error
flag. The four checkbox fields are stored unconditionally. When no error was
flagged, `CONFIG.save()` runs (modelled as always succeeding, so the
`IntegrityError`/`OperationalError` arms are not taken), the success message
is flashed and `schedule.end_scheduled_tasks()` sweeps the pool. The next
statement evaluates `config.schedule_reconnect` — but `admin.py` never
imports or defines a global named `config` (it imports `CONFIG` from
`.config_sql`; the package-level `config` object of `__init__.py` is not
bound in this module), so the lookup raises `NameError`, which the
surrounding `try` (catching only `IntegrityError` and `OperationalError`)
does not handle: `register_scheduled_tasks` is never invoked and the
scheduler's job list is left untouched. -/
def update_scheduledtasks (form : ScheduleForm) (cfg : Config)
    (pool : List QueueEntry) (sched : SchedulerState) : UpdateOutcome :=
  let error := false
  let step1 :=
    if 0 ≤ form.schedule_start_time ∧ form.schedule_start_time ≤ 23 then
      ({ cfg with schedule_start_time := form.schedule_start_time }, ([] : List Flash), error)
    else
      (cfg, [Flash.mk "Invalid start time for task specified" "error"], true)
  let cfg := step1.1
  let flashes := step1.2.1
  let error := step1.2.2
  let step2 :=
    if 0 < form.schedule_duration ∧ form.schedule_duration ≤ 60 then
      ({ cfg with schedule_duration := form.schedule_duration }, flashes, error)
    else
      (cfg, flashes ++ [Flash.mk "Invalid duration for task specified" "error"], true)
  let cfg := step2.1
  let flashes := step2.2.1
  let error := step2.2.2
  let cfg := { cfg with
    schedule_generate_book_covers := form.schedule_generate_book_covers
    schedule_generate_series_covers := form.schedule_generate_series_covers
    schedule_metadata_backup := form.schedule_metadata_backup
    schedule_reconnect := form.schedule_reconnect }
  if error then
    { config := cfg, flashes := flashes, saved := false, pool := pool,
      scheduler := sched, register_called := false, error_raised := none }
  else
    { config := cfg
      flashes := flashes ++ [Flash.mk "Scheduled tasks settings updated" "success"]
      saved := true
      pool := end_scheduled_tasks pool
      scheduler := sched
      register_called := false
      error_raised := some (PyError.nameError "name config is not defined") }

/-! ## Metadata backup task (`calibre_web/tasks/metadata_backup.py`) -/

/-- A calibre book row, restricted to what `backup_metadata` reads. -/
structure Book where
  id : Nat
  path : String
  deriving DecidableEq, Repr

/-- Outcome of one external collaborator call (ORM session query/commit, file
write inside `open_metadata`, ...): a value, or a raised exception whose
`str(ex)` is `msg`. -/
inductive DbResult (α : Type) where
  | ok (a : α)
  | raised (msg : String)
  deriving DecidableEq, Repr

/-- The external collaborators `backup_metadata` calls, in program order: the
`Metadata_Dirtied` query (book ids), the `CustomColumns` query, the per-book
`Books` lookup (`one_or_none`), the per-book dirtied-row delete + commit, and
`open_metadata` (file or Google Drive write). Each may raise. -/
structure BackupEnv where
  dirtied_query : DbResult (List Nat)
  custom_columns_query : DbResult (List String)
  book_query : Nat → DbResult (Option Book)
  delete_commit : Nat → DbResult Unit
  do_open_metadata : Book → DbResult Unit

/-- The observable outcome of `backup_metadata`: the final task state, whether
the session was rolled back / closed, an exception escaping `run` (if any),
and the successive values assigned to `self.progress` in the loop. -/
structure BackupOutcome where
  task : Task
  rolled_back : Bool
  closed : Bool
  raised_out : Option PyError
  progress_trace : List ℚ
  deriving Repr

/-- The `except Exception` handler of `backup_metadata` (lines 84-89). Its
first statement is `b = "NaN" if not hasattr(book, "id") else book.id`: when
the exception occurred before the loop's first `book = ...` assignment
completed, the local `book` is unbound and evaluating it raises
`UnboundLocalError`, which escapes `run` — `_handleError`, the rollback and
the close are all skipped. When `book` is bound the handler runs to
completion: `_handleError("Error creating metadata backup: " + str(ex))`,
rollback, close. `book_local` is the Python local: `none` while unbound,
`some v` once assigned (`v` may be `none`, Python `None`, which `hasattr`
accepts). -/
def handle_backup_exception (t : Task) (book_local : Option (Option Book)) (msg : String)
    (trace : List ℚ) : BackupOutcome :=
  match book_local with
  | none =>
    { task := t, rolled_back := false, closed := false,
      raised_out := some (PyError.unboundLocalError
        "cannot access local variable book where it is not associated with a value"),
      progress_trace := trace }
  | some _ =>
    { task := handleError ("Error creating metadata backup: " ++ msg) t,
      rolled_back := true, closed := true, raised_out := none, progress_trace := trace }

/-- The `for backup in metadata_backup` loop (lines 70-80): per book, look the
book up, delete its dirtied row and commit, write the backup when the book was
found (a missing book is only logged), then `i += 1` and
`self.progress = (1.0 / count) * i`. Any raise diverts to the except
handler with the current binding state of the local `book`. -/
def backup_loop (env : BackupEnv) (count : Nat) (t : Task)
    (book_local : Option (Option Book)) (i : Nat) (trace : List ℚ) :
    List Nat → BackupOutcome
  | [] =>
    { task := handleSuccess t, rolled_back := false, closed := true,
      raised_out := none, progress_trace := trace }
  | b :: rest =>
    match env.book_query b with
    | DbResult.raised msg => handle_backup_exception t book_local msg trace
    | DbResult.ok book =>
      match env.delete_commit b with
      | DbResult.raised msg => handle_backup_exception t (some book) msg trace
      | DbResult.ok _ =>
        let write : DbResult Unit := match book with
          | some bk => env.do_open_metadata bk
          | none => DbResult.ok ()
        match write with
        | DbResult.raised msg => handle_backup_exception t (some book) msg trace
        | DbResult.ok _ =>
          let i := i + 1
          let progress := (1 / (count : ℚ)) * i
          backup_loop env count { t with progress := progress } (some book) i
            (trace ++ [progress]) rest

/-- `backup_metadata` (lines 61-89): the two initial queries, then the
per-book loop, `_handleSuccess()` and `close()` on normal completion. A raise
in either initial query reaches the except handler with the local `book`
still unbound. -/
def backup_metadata (env : BackupEnv) (t : Task) : BackupOutcome :=
  match env.dirtied_query with
  | DbResult.raised msg => handle_backup_exception t none msg []
  | DbResult.ok metadata_backup =>
    match env.custom_columns_query with
    | DbResult.raised msg => handle_backup_exception t none msg []
    | DbResult.ok _ =>
      backup_loop env metadata_backup.length t none 0 [] metadata_backup

/-- An environment in which every collaborator call succeeds and every dirtied
book id resolves to a book; used to observe the progress updates of a complete
run. -/
def okBackupEnv (books : List Nat) : BackupEnv :=
  { dirtied_query := DbResult.ok books
    custom_columns_query := DbResult.ok []
    book_query := fun b => DbResult.ok (some ⟨b, "path"⟩)
    delete_commit := fun _ => DbResult.ok ()
    do_open_metadata := fun _ => DbResult.ok () }

/-! ## Upload marker task (`calibre_web/tasks/upload.py`) and
temp-folder task (`calibre-web/tasks/tempFolder.py`) -/

/-- How a class attribute reached through an instance is defined: as a
`@property` getter (attribute access produces the returned value) or as a
plain method (attribute access produces a bound-method object; the stored
boolean is what the method would return if called). -/
inductive AttrDef where
  | propertyGetter (b : Bool)
  | plainMethod (b : Bool)
  deriving DecidableEq, Repr

/-- The result of Python attribute access on the instance. -/
inductive PyAttrResult where
  | val (b : Bool)
  | boundMethod
  deriving DecidableEq, Repr

/-- Python attribute access: a property runs its getter, a plain method
yields the bound method object without calling it. -/
def getattr_result : AttrDef → PyAttrResult
  | AttrDef.propertyGetter b => PyAttrResult.val b
  | AttrDef.plainMethod _ => PyAttrResult.boundMethod

/-- Python truthiness of the accessed attribute: a bound method object is
always truthy. -/
def PyAttrResult.truthy : PyAttrResult → Bool
  | PyAttrResult.val b => b
  | PyAttrResult.boundMethod => true

/-- `upload.py` lines 41-42: `def is_cancellable(self) -> bool: return False`
— a plain method, not decorated with `@property` (unlike the sibling task
classes). -/
def TaskUpload.is_cancellable_attr : AttrDef := AttrDef.plainMethod false

/-- `tempFolder.py` lines 42-44: `@property def is_cancellable(self) -> bool:
return False`. -/
def TaskDeleteTempFolder.is_cancellable_attr : AttrDef := AttrDef.propertyGetter false

/-- `metadata_backup.py` lines 128-130: `@property def is_cancellable(self) ->
bool: return True`. -/
def TaskBackupMetadata.is_cancellable_attr : AttrDef := AttrDef.propertyGetter true

/-- Modelled from the spec: `CalibreTask.__init__(message)` initializes a
fresh Waiting task carrying the message (`services/worker.py` is not in the
snapshot; spec section 3 lifecycle). -/
def CalibreTask.init (task_message : String) : Task :=
  { id := 0, name := "", message := task_message, progress := 0, stat := Stat.waiting,
    is_cancellable := false, scheduled := false, start_time := none, end_time := none }

/-- Attribute assignment through a `super()` proxy object: CPython supports no
attribute setting on `super` objects and raises
`AttributeError: super object has no attribute ...` unconditionally. -/
def super_setattr (attr : String) : Except PyError Unit :=
  Except.error (PyError.attributeError ("super object has no attribute " ++ attr))

/-- `TaskUpload.__init__` (`upload.py` lines 25-30): base init, set
`start_time`/`end_time` to now, then `super().stat = STAT_FINISH_SUCCESS`
(line 28) — which raises `AttributeError`, so the remaining statements
(`super().progress = 1`, `self.book_title = ...`) never execute and
construction always fails. -/
def TaskUpload.init (task_message : String) (_book_title : String) (now : Nat) :
    Except PyError Task := do
  let self := CalibreTask.init task_message
  let self := { self with start_time := some now, end_time := some now }
  super_setattr "stat"
  super_setattr "progress"
  pure self

/-- The `OSError` family raised by `shutil.rmtree` inside
`file_helper.del_temp_dir` (`file_helper.py` lines 19-21). -/
inductive OsErrorKind where
  | fileNotFound
  | permissionError
  | osError
  deriving DecidableEq, Repr

/-- The observable outcome of `TaskDeleteTempFolder.run`: the task afterwards
and whether the exception logger fired. -/
structure TempFolderRunOutcome where
  task : Task
  logged : Bool
  deriving DecidableEq, Repr

/-- `TaskDeleteTempFolder.run` (`tempFolder.py` lines 29-36):
`del_temp_dir()` in a `try`; `FileNotFoundError` is passed over silently,
`PermissionError`/`OSError` are logged; every branch falls through to
`self._handleSuccess()`. `del_result` is the outcome of the delete call
(`none` = succeeded). -/
def TaskDeleteTempFolder.run (t : Task) (del_result : Option OsErrorKind) :
    TempFolderRunOutcome :=
  match del_result with
  | none => { task := handleSuccess t, logged := false }
  | some OsErrorKind.fileNotFound => { task := handleSuccess t, logged := false }
  | some OsErrorKind.permissionError => { task := handleSuccess t, logged := true }
  | some OsErrorKind.osError => { task := handleSuccess t, logged := true }

/-! ## Helper lemmas -/

theorem cancelTask_id (t : Task) : (cancelTask t).id = t.id := by
  cases t with
  | mk id name message progress stat c sch st et =>
    cases stat <;> first | rfl | (cases c <;> rfl)

theorem cancelTask_idem (t : Task) : cancelTask (cancelTask t) = cancelTask t := by
  cases t with
  | mk id name message progress stat c sch st et =>
    cases stat <;> first | rfl | (cases c <;> rfl)

theorem foldl_end_task_eq (ids : List Nat) (pool : List QueueEntry) :
    ids.foldl end_task pool =
      pool.map fun e =>
        if ids.contains e.task.id then { e with task := cancelTask e.task } else e := by
  induction ids generalizing pool with
  | nil =>
    simp [List.foldl_nil]
  | cons tid rest ih =>
    rw [List.foldl_cons, ih]
    unfold end_task
    rw [List.map_map]
    apply List.map_congr_left
    intro e _
    by_cases h1 : e.task.id = tid
    · by_cases h2 : rest.contains e.task.id
      · simp [Function.comp, h1, h2, cancelTask_id, cancelTask_idem, List.contains_cons]
      · simp only [Function.comp, h1, cancelTask_id, List.contains_cons, if_pos rfl]
        simp [cancelTask_idem]
    · by_cases h2 : rest.contains e.task.id
      · simp [Function.comp, h1, h2, List.contains_cons]
      · simp [Function.comp, h1, h2, List.contains_cons]

/-! ## Concrete instances used by the claim theorems -/

def formC3 : ScheduleForm :=
  { schedule_start_time := 10, schedule_duration := 30,
    schedule_generate_book_covers := true, schedule_generate_series_covers := false,
    schedule_metadata_backup := true, schedule_reconnect := true }

def cfgC3 : Config :=
  { schedule_start_time := 4, schedule_duration := 10,
    schedule_generate_book_covers := false, schedule_generate_series_covers := false,
    schedule_metadata_backup := false, schedule_reconnect := true }

/-- A scheduler still holding the trigger jobs installed by a previous
registration. -/
def schedC3 : SchedulerState :=
  ⟨[Job.taskBatch [⟨"TaskDeleteTempFolder", "delete temp", true⟩] ⟨4, 0⟩,
    Job.funcJob "end scheduled task" ⟨4, 10⟩]⟩

/-- An environment whose initial `Metadata_Dirtied` query raises (for example
a locked database); everything later would succeed but is never reached. -/
def lockedEnv : BackupEnv :=
  { dirtied_query := DbResult.raised "database is locked"
    custom_columns_query := DbResult.ok []
    book_query := fun _ => DbResult.ok none
    delete_commit := fun _ => DbResult.ok ()
    do_open_metadata := fun _ => DbResult.ok () }

/-- The metadata-backup task as the pool hands it to `run`: Started. -/
def startedBackupTask : Task :=
  { CalibreTask.init "Backing up Metadata" with stat := Stat.started }

/-! ## Claims -/

/-- C1: the end-of-window sweep `end_scheduled_tasks` requests cancellation
(`end_task`) of exactly those pool entries whose task has `scheduled = true`
and `is_cancellable = true`; performing the sweep cancels every such Waiting
or Started task (`cancelTask`) and leaves every entry lacking either flag
unchanged. Stated for pools with distinct task ids (each task has exactly one
pool entry, spec section 3). -/
theorem end_scheduled_tasks_exactly_flagged (pool : List QueueEntry)
    (hids : (pool.map fun e => e.task.id).Nodup) :
    (∀ e ∈ pool, e.task.id ∈ end_scheduled_tasks_ids pool ↔
      (e.task.scheduled = true ∧ e.task.is_cancellable = true)) ∧
    end_scheduled_tasks pool =
      pool.map fun e =>
        if e.task.scheduled && e.task.is_cancellable then
          { e with task := cancelTask e.task } else e := by
  have hinj : ∀ a ∈ pool, ∀ b ∈ pool, a.task.id = b.task.id → a = b := by
    intro a ha b hb hab
    exact List.inj_on_of_nodup_map hids ha hb hab
  have hmem : ∀ e ∈ pool, (e.task.id ∈ end_scheduled_tasks_ids pool ↔
      (e.task.scheduled = true ∧ e.task.is_cancellable = true)) := by
    intro e he
    constructor
    · intro hid
      unfold end_scheduled_tasks_ids at hid
      rw [List.mem_map] at hid
      obtain ⟨e2, he2, hide⟩ := hid
      rw [List.mem_filter] at he2
      obtain ⟨he2p, hflags⟩ := he2
      have heq : e2 = e := hinj e2 he2p e he hide
      subst heq
      simpa [Bool.and_eq_true] using hflags
    · intro hf
      unfold end_scheduled_tasks_ids
      rw [List.mem_map]
      exact ⟨e, List.mem_filter.mpr ⟨he, by simp [hf.1, hf.2]⟩, rfl⟩
  refine ⟨hmem, ?_⟩
  unfold end_scheduled_tasks
  rw [foldl_end_task_eq]
  apply List.map_congr_left
  intro e he
  by_cases hf : e.task.scheduled = true ∧ e.task.is_cancellable = true
  · have hc : (end_scheduled_tasks_ids pool).contains e.task.id = true :=
      List.elem_iff.mpr ((hmem e he).mpr hf)
    have hb : (e.task.scheduled && e.task.is_cancellable) = true := by
      rw [hf.1, hf.2]
      rfl
    rw [hc, hb]
  · have hc : (end_scheduled_tasks_ids pool).contains e.task.id = false := by
      rw [Bool.eq_false_iff]
      intro hcon
      exact hf ((hmem e he).mp (List.elem_iff.mp hcon))
    have hb : (e.task.scheduled && e.task.is_cancellable) = false := by
      cases hs : e.task.scheduled with
      | false => simp
      | true =>
        cases hcanc : e.task.is_cancellable with
        | false => simp
        | true => exact absurd ⟨hs, hcanc⟩ hf
    rw [hc, hb]

def taskC1a : Task :=
  { id := 5, name := "Metadata backup", message := "", progress := 0, stat := Stat.started,
    is_cancellable := true, scheduled := true, start_time := some 100, end_time := none }

def taskC1b : Task :=
  { id := 6, name := "Reconnect database", message := "", progress := 0, stat := Stat.started,
    is_cancellable := false, scheduled := true, start_time := some 100, end_time := none }

def poolC1 : List QueueEntry :=
  [⟨0, "admin", false, taskC1a, 1⟩, ⟨1, "admin", false, taskC1b, 2⟩]

/-- C1 witness: on a concrete pool with one scheduled cancellable Started task
(id 5) and one scheduled non-cancellable one (id 6), the sweep requests
cancellation of id 5. -/
theorem end_scheduled_tasks_exactly_flagged_witness :
    (5 : Nat) ∈ end_scheduled_tasks_ids poolC1 :=
  ((end_scheduled_tasks_exactly_flagged poolC1 (by decide)).1
    ⟨0, "admin", false, taskC1a, 1⟩ (by decide)).mpr (by decide)

/-- C3: the admin re-registration path is broken before any trigger work.
`register_scheduled_tasks` itself, when invoked, does replace everything: its
resulting job list is exactly the fresh batch trigger plus end-of-window
trigger (first conjunct). But `update_scheduledtasks` — the admin
configuration-change path the claim is about — cancels the outstanding
scheduled cancellable tasks and then raises `NameError` on the undefined
global `config` (admin.py line 1291), so `register_scheduled_tasks` is never
called, the previously installed jobs are not removed, and no new trigger set
is installed. -/
theorem update_scheduledtasks_never_reaches_register :
    (∀ (cfg : Config) (reconnect : Bool) (now : Int) (prev : SchedulerState),
      (register_scheduled_tasks cfg reconnect now prev).scheduler.jobs =
        [Job.taskBatch (get_scheduled_tasks cfg reconnect) ⟨cfg.schedule_start_time, 0⟩,
         Job.funcJob "end scheduled task"
           ⟨(calclulate_end_time cfg.schedule_start_time cfg.schedule_duration).1,
            (calclulate_end_time cfg.schedule_start_time cfg.schedule_duration).2⟩]) ∧
    (update_scheduledtasks formC3 cfgC3 poolC1 schedC3).error_raised =
      some (PyError.nameError "name config is not defined") ∧
    (update_scheduledtasks formC3 cfgC3 poolC1 schedC3).register_called = false ∧
    (update_scheduledtasks formC3 cfgC3 poolC1 schedC3).scheduler = schedC3 ∧
    (update_scheduledtasks formC3 cfgC3 poolC1 schedC3).pool = end_scheduled_tasks poolC1 :=
  ⟨fun _ _ _ _ => rfl, rfl, rfl, rfl, rfl⟩

/-- C5: `backup_metadata` does not absorb every exception. When the initial
`Metadata_Dirtied` query raises, the `except` handler's first statement reads
the loop-local `book`, which is still unbound, so the handler itself raises
`UnboundLocalError` out of `run`: `_handleError` is never invoked (the task
state is unchanged), the session is neither rolled back nor closed, and the
trace shows no progress update. -/
theorem backup_metadata_handler_unbound_local :
    backup_metadata lockedEnv startedBackupTask =
      { task := startedBackupTask, rolled_back := false, closed := false,
        raised_out := some (PyError.unboundLocalError
          "cannot access local variable book where it is not associated with a value"),
        progress_trace := [] } :=
  rfl

/-- C7: reading `is_cancellable` on the task variants. For the delete-temp
and metadata-backup variants the `@property` getter yields the fixed booleans
`false` and `true`; for the upload-marker variant the decorator is missing,
so attribute access yields the bound-method object — a truthy value that is
not the boolean `False` the claim requires. -/
theorem is_cancellable_attr_values :
    getattr_result TaskDeleteTempFolder.is_cancellable_attr = PyAttrResult.val false ∧
    getattr_result TaskBackupMetadata.is_cancellable_attr = PyAttrResult.val true ∧
    getattr_result TaskUpload.is_cancellable_attr = PyAttrResult.boundMethod ∧
    (getattr_result TaskUpload.is_cancellable_attr).truthy = true :=
  ⟨rfl, rfl, rfl, rfl⟩

/-- C8: constructing an upload-marker task always raises. Line 28 of
`upload.py` assigns through a `super()` proxy (`super().stat = ...`), which
CPython rejects with `AttributeError` for every input, so no `TaskUpload`
instance is ever produced, let alone one in the claimed terminal state. -/
theorem taskupload_init_always_raises :
    ∀ (task_message book_title : String) (now : Nat),
      TaskUpload.init task_message book_title now =
        Except.error (PyError.attributeError "super object has no attribute stat") :=
  fun _ _ _ => rfl

/-- C9: `TaskDeleteTempFolder.run` reaches `_handleSuccess` on every outcome
of the delete call — success, `FileNotFoundError` (silently passed),
`PermissionError` or other `OSError` (logged) — so the task always ends in
the success state and never in `Fail`. -/
theorem tempfolder_run_always_success (t : Task) (del_result : Option OsErrorKind) :
    (TaskDeleteTempFolder.run t del_result).task.stat = Stat.finishSuccess ∧
    (TaskDeleteTempFolder.run t del_result).task.stat ≠ Stat.fail := by
  have h1 : (TaskDeleteTempFolder.run t del_result).task.stat = Stat.finishSuccess := by
    cases del_result with
    | none => rfl
    | some k => cases k <;> rfl
  refine ⟨h1, ?_⟩
  rw [h1]
  exact fun h => Stat.noConfusion h

/-- C9 witness: a concrete run over a non-deletable temp folder still ends in
success. -/
theorem tempfolder_run_always_success_witness :
    (TaskDeleteTempFolder.run (CalibreTask.init "Delete temp folder contents")
      (some OsErrorKind.osError)).task.stat = Stat.finishSuccess :=
  (tempfolder_run_always_success (CalibreTask.init "Delete temp folder contents")
    (some OsErrorKind.osError)).1

/-- C2: `render_task_status` produces a record for an entry exactly when the
entry's owner equals the requesting user's name or the requesting user is an
admin; consequently an admin's rendering covers every entry (same length as
the list), and a non-admin's rendering never contains a record derived from
another user's entry. -/
theorem render_task_status_ownership (now : Nat) (cu : CurrentUser) (tl : List QueueEntry) :
    (∀ r, r ∈ render_task_status now cu tl ↔
      ∃ e, e ∈ tl ∧ (e.user = cu.name ∨ cu.role_admin = true) ∧ r = render_one now e) ∧
    (cu.role_admin = true → (render_task_status now cu tl).length = tl.length) := by
  induction tl with
  | nil =>
    refine ⟨?_, fun _ => rfl⟩
    intro r
    constructor
    · intro hr
      exact absurd hr (List.not_mem_nil r)
    · rintro ⟨e, he, _⟩
      exact absurd he (List.not_mem_nil e)
  | cons e rest ih =>
    obtain ⟨ih1, ih2⟩ := ih
    have hunf : render_task_status now cu (e :: rest) =
        if e.user = cu.name ∨ cu.role_admin = true then
          render_one now e :: render_task_status now cu rest
        else render_task_status now cu rest := rfl
    by_cases h : e.user = cu.name ∨ cu.role_admin = true
    · rw [hunf, if_pos h]
      constructor
      · intro r
        rw [List.mem_cons]
        constructor
        · rintro (hr | hr)
          · exact ⟨e, List.mem_cons_self e rest, h, hr⟩
          · obtain ⟨e2, he2, hcond, hrr⟩ := (ih1 r).mp hr
            exact ⟨e2, List.mem_cons_of_mem _ he2, hcond, hrr⟩
        · rintro ⟨e2, he2, hcond, hrr⟩
          rw [List.mem_cons] at he2
          rcases he2 with rfl | he2
          · exact Or.inl hrr
          · exact Or.inr ((ih1 r).mpr ⟨e2, he2, hcond, hrr⟩)
      · intro hadm
        simp [List.length_cons, ih2 hadm]
    · rw [hunf, if_neg h]
      constructor
      · intro r
        rw [ih1 r]
        constructor
        · rintro ⟨e2, he2, hcond, hrr⟩
          exact ⟨e2, List.mem_cons_of_mem _ he2, hcond, hrr⟩
        · rintro ⟨e2, he2, hcond, hrr⟩
          rw [List.mem_cons] at he2
          rcases he2 with rfl | he2
          · exact absurd hcond h
          · exact ⟨e2, he2, hcond, hrr⟩
      · intro hadm
        exact absurd (Or.inr hadm) h

def taskC2 : Task :=
  { id := 9, name := "Upload", message := "done", progress := 1, stat := Stat.finishSuccess,
    is_cancellable := false, scheduled := false, start_time := some 50, end_time := some 50 }

def entryC2 : QueueEntry := ⟨0, "alice", false, taskC2, 3⟩

/-- C2 witness: the owner "alice" (non-admin) sees her own entry's record. -/
theorem render_task_status_ownership_witness :
    render_one 7 entryC2 ∈ render_task_status 7 ⟨"alice", false⟩ [entryC2] :=
  ((render_task_status_ownership 7 ⟨"alice", false⟩ [entryC2]).1 (render_one 7 entryC2)).mpr
    ⟨entryC2, List.mem_cons_self _ _, Or.inl rfl, rfl⟩

theorem get_scheduled_tasks_ne_nil (cfg : Config) (reconnect : Bool) :
    get_scheduled_tasks cfg reconnect ≠ [] := by
  have hmem : (⟨"TaskDeleteTempFolder", "delete temp", true⟩ : ScheduledTaskSpec) ∈
      get_scheduled_tasks cfg reconnect := by
    unfold get_scheduled_tasks
    simp
  exact List.ne_nil_of_mem hmem

/-- C4 (amended): `register_scheduled_tasks` submits the batch immediately
exactly when `now` lies strictly inside the open window — strictly after the
start hour and strictly before start plus duration — matching the strict
comparisons `start_time < now < end_time` of `should_task_be_running`; the
window boundaries themselves do not trigger the immediate submission. -/
theorem register_immediate_iff_strictly_inside (cfg : Config) (reconnect : Bool)
    (now : Int) (prev : SchedulerState) :
    (register_scheduled_tasks cfg reconnect now prev).immediate =
        get_scheduled_tasks cfg reconnect ↔
      (cfg.schedule_start_time * MICROS_PER_HOUR < now ∧
        now < cfg.schedule_start_time * MICROS_PER_HOUR +
          cfg.schedule_duration * MICROS_PER_MINUTE) := by
  have hiff : should_task_be_running cfg.schedule_start_time cfg.schedule_duration now = true ↔
      (cfg.schedule_start_time * MICROS_PER_HOUR < now ∧
        now < cfg.schedule_start_time * MICROS_PER_HOUR +
          cfg.schedule_duration * MICROS_PER_MINUTE) := by
    unfold should_task_be_running MICROS_PER_HOUR MICROS_PER_MINUTE
    simp only [Bool.and_eq_true, decide_eq_true_eq]
    constructor
    · intro h
      refine ⟨h.1, ?_⟩
      omega
    · intro h
      refine ⟨h.1, ?_⟩
      omega
  unfold register_scheduled_tasks
  dsimp only
  by_cases h : should_task_be_running cfg.schedule_start_time cfg.schedule_duration now = true
  · rw [if_pos h]
    exact ⟨fun _ => hiff.mp h, fun _ => rfl⟩
  · rw [if_neg h]
    constructor
    · intro heq
      exact absurd heq.symm (get_scheduled_tasks_ne_nil cfg reconnect)
    · intro hcond
      exact absurd (hiff.mpr hcond) h

def cfgBoundary : Config :=
  { schedule_start_time := 2, schedule_duration := 60,
    schedule_generate_book_covers := false, schedule_generate_series_covers := false,
    schedule_metadata_backup := false, schedule_reconnect := true }

/-- C4 counterexample: at exactly the configured start hour (02:00:00.000000,
i.e. 7200000000 microseconds after midnight, with a 60-minute window) the
current time lies inside the claim's closed window `[start, start+duration]`,
yet `register_scheduled_tasks` does not submit the batch immediately because
`should_task_be_running` compares strictly. -/
theorem register_immediate_boundary_counterexample :
    in_closed_window 2 60 7200000000 = true ∧
    (register_scheduled_tasks cfgBoundary true 7200000000 ⟨[]⟩).immediate = [] :=
  ⟨rfl, rfl⟩

/-- C4 witness: half an hour into the window the batch is submitted
immediately. -/
theorem register_immediate_iff_strictly_inside_witness :
    (register_scheduled_tasks cfgBoundary true 9000000000 ⟨[]⟩).immediate =
      get_scheduled_tasks cfgBoundary true :=
  (register_immediate_iff_strictly_inside cfgBoundary true 9000000000 ⟨[]⟩).mpr (by decide)

/-- C10: `update_scheduledtasks` accepts the submitted start time exactly when
`0 <= value <= 23` and the submitted duration exactly when `0 < value <= 60`;
an error flash is emitted exactly when one of them is out of range; and the
save, the cancellation sweep of outstanding scheduled tasks, and any
re-registration happen only when both are in range. -/
theorem update_scheduledtasks_validation (form : ScheduleForm) (cfg : Config)
    (pool : List QueueEntry) (sched : SchedulerState) :
    ((update_scheduledtasks form cfg pool sched).config.schedule_start_time =
      if 0 ≤ form.schedule_start_time ∧ form.schedule_start_time ≤ 23 then
        form.schedule_start_time else cfg.schedule_start_time) ∧
    ((update_scheduledtasks form cfg pool sched).config.schedule_duration =
      if 0 < form.schedule_duration ∧ form.schedule_duration ≤ 60 then
        form.schedule_duration else cfg.schedule_duration) ∧
    ((update_scheduledtasks form cfg pool sched).saved = true ↔
      ((0 ≤ form.schedule_start_time ∧ form.schedule_start_time ≤ 23) ∧
        (0 < form.schedule_duration ∧ form.schedule_duration ≤ 60))) ∧
    ((update_scheduledtasks form cfg pool sched).pool =
      if (0 ≤ form.schedule_start_time ∧ form.schedule_start_time ≤ 23) ∧
          (0 < form.schedule_duration ∧ form.schedule_duration ≤ 60) then
        end_scheduled_tasks pool else pool) ∧
    ((∃ f ∈ (update_scheduledtasks form cfg pool sched).flashes, f.category = "error") ↔
      ¬ ((0 ≤ form.schedule_start_time ∧ form.schedule_start_time ≤ 23) ∧
        (0 < form.schedule_duration ∧ form.schedule_duration ≤ 60))) ∧
    ((update_scheduledtasks form cfg pool sched).register_called = true →
      ((0 ≤ form.schedule_start_time ∧ form.schedule_start_time ≤ 23) ∧
        (0 < form.schedule_duration ∧ form.schedule_duration ≤ 60))) := by
  by_cases h1 : 0 ≤ form.schedule_start_time ∧ form.schedule_start_time ≤ 23 <;>
    by_cases h2 : 0 < form.schedule_duration ∧ form.schedule_duration ≤ 60 <;>
    simp [update_scheduledtasks, h1, h2]

/-- C10 witness: an in-range submission (start 10, duration 30) is saved. -/
theorem update_scheduledtasks_validation_witness :
    (update_scheduledtasks formC3 cfgC3 [] ⟨[]⟩).saved = true :=
  ((update_scheduledtasks_validation formC3 cfgC3 [] ⟨[]⟩).2.2.1).mpr (by decide)

theorem backup_loop_ok_trace (books : List Nat) (count : Nat) (t : Task)
    (bl : Option (Option Book)) (i : Nat) (trace : List ℚ) (bs : List Nat) :
    (backup_loop (okBackupEnv books) count t bl i trace bs).progress_trace =
      trace ++ (List.range bs.length).map fun (k : ℕ) => (1 / (count : ℚ)) * ((i : ℚ) + (k : ℚ) + 1) := by
  induction bs generalizing t bl i trace with
  | nil => simp [backup_loop]
  | cons b rest ih =>
    have hstep : backup_loop (okBackupEnv books) count t bl i trace (b :: rest) =
        backup_loop (okBackupEnv books) count
          { t with progress := (1 / (count : ℚ)) * ((i + 1 : ℕ) : ℚ) }
          (some (some ⟨b, "path"⟩)) (i + 1)
          (trace ++ [(1 / (count : ℚ)) * ((i + 1 : ℕ) : ℚ)]) rest := rfl
    rw [hstep, ih]
    rw [List.length_cons, List.range_succ_eq_map, List.map_cons, List.map_map]
    rw [List.append_assoc, List.singleton_append]
    congr 1
    congr 1
    · push_cast
      ring
    · apply List.map_congr_left
      intro k _
      simp only [Function.comp]
      push_cast
      ring

/-- C6: over `count >= 1` dirtied books with all collaborator calls
succeeding, the progress values assigned while the metadata-backup task runs
are exactly `1/count, 2/count, ..., count/count` — after the i-th book the
progress equals `i/count` — so the progress stays within `[0, 1]` and is
monotonically non-decreasing throughout the Started phase. -/
theorem backup_metadata_progress_invariant (books : List Nat) (t : Task)
    (hne : books ≠ []) :
    (backup_metadata (okBackupEnv books) t).progress_trace =
        ((List.range books.length).map fun (k : ℕ) => ((k : ℚ) + 1) / (books.length : ℚ)) ∧
    List.Chain' (· ≤ ·) (backup_metadata (okBackupEnv books) t).progress_trace ∧
    ∀ q ∈ (backup_metadata (okBackupEnv books) t).progress_trace, 0 ≤ q ∧ q ≤ 1 := by
  have hlen : 0 < books.length := List.length_pos.mpr hne
  have hcast : (0 : ℚ) < (books.length : ℚ) := by exact_mod_cast hlen
  have hb : backup_metadata (okBackupEnv books) t =
      backup_loop (okBackupEnv books) books.length t none 0 [] books := rfl
  have htrace : (backup_metadata (okBackupEnv books) t).progress_trace =
      (List.range books.length).map fun (k : ℕ) => ((k : ℚ) + 1) / (books.length : ℚ) := by
    rw [hb, backup_loop_ok_trace]
    rw [List.nil_append]
    apply List.map_congr_left
    intro k _
    rw [one_div_mul_eq_div]
    push_cast
    ring_nf
  refine ⟨htrace, ?_, ?_⟩
  · rw [htrace]
    rw [List.chain'_map]
    obtain ⟨m, hm⟩ := Nat.exists_eq_succ_of_ne_zero (Nat.pos_iff_ne_zero.mp hlen)
    rw [hm]
    rw [List.chain'_range_succ]
    intro k _
    have hc2 : (0 : ℚ) < ((m.succ : ℕ) : ℚ) := by exact_mod_cast Nat.succ_pos m
    rw [div_le_div_iff_of_pos_right hc2]
    push_cast
    linarith
  · rw [htrace]
    intro q hq
    obtain ⟨k, hk, rfl⟩ := List.mem_map.mp hq
    rw [List.mem_range] at hk
    constructor
    · positivity
    · rw [div_le_one hcast]
      have : (k : ℚ) + 1 ≤ (books.length : ℚ) := by exact_mod_cast Nat.succ_le_of_lt hk
      linarith

/-- C6 witness: three dirtied books give the progress sequence 1/3, 2/3, 1. -/
theorem backup_metadata_progress_invariant_witness :
    (backup_metadata (okBackupEnv [11, 12, 13]) startedBackupTask).progress_trace =
      [1 / 3, 2 / 3, 1] := by
  have h := (backup_metadata_progress_invariant [11, 12, 13] startedBackupTask (by decide)).1
  rw [h]
  norm_num [List.range_succ]

end CalibreWeb
